import Mathlib

/-!
Verification development for the paypal-backend-alarmreminderapp repository.

The repository hosts two express servers:
* `src/server.js` (current revision, lines 1-344): a Google Play Billing
  backend with a synchronous verify endpoint and an RTDN (real-time
  developer notification) webhook that is the entitlement authority.
* `src/unnamed/part_006`: a PayPal + Stripe backend with webhook handlers.

The Firestore collections touched by the handlers are modelled as
association lists keyed by document id; server timestamps are omitted
(no claim mentions them).  External collaborators (Play Developer API,
Play Integrity, Stripe SDK, PayPal REST API) enter as explicit inputs:
the provider response a handler would fetch is a parameter, and outbound
cancellation requests are recorded in the state.
-/

/-- Firestore keyed-document read: first document whose id matches. -/
def getDoc {α : Type} : List (String × α) → String → Option α
  | [], _ => none
  | (k, v) :: t, key => if k = key then some v else getDoc t key

/-- Firestore keyed-document full `set`: replace the document with id `key`
(document ids are unique), creating it when absent. -/
def setDoc {α : Type} : List (String × α) → String → α → List (String × α)
  | [], key, v => [(key, v)]
  | (k, d) :: t, key, v => if k = key then (key, v) :: t else (k, d) :: setDoc t key v

/-- Number of documents carrying a given id (used to state uniqueness). -/
def keyCount {α : Type} : List (String × α) → String → Nat
  | [], _ => 0
  | (k, _) :: t, key => (if k = key then 1 else 0) + keyCount t key

/-- Leading decimal digits of a character list (what JS `parseInt` consumes). -/
def leadDigits : List Char → List Char
  | [] => []
  | c :: cs => if c.isDigit then c :: leadDigits cs else []

/-- Numeric value of a digit list. -/
def digitsVal (cs : List Char) : Nat :=
  cs.foldl (fun n c => n * 10 + (c.toNat - '0'.toNat)) 0

/-- JS `parseInt(s, 10)`: skip spaces, optional sign, then the longest digit
prefix; `none` models `NaN` (no digits). -/
def jsParseInt (s : String) : Option Int :=
  let cs := s.toList.dropWhile (fun c => c = ' ')
  match cs with
  | '-' :: rest =>
    match leadDigits rest with
    | [] => none
    | ds => some (-(digitsVal ds : Int))
  | '+' :: rest =>
    match leadDigits rest with
    | [] => none
    | ds => some ((digitsVal ds : Int))
  | _ =>
    match leadDigits cs with
    | [] => none
    | ds => some ((digitsVal ds : Int))

/-! ## Google Play backend (src/server.js, current revision) -/

/-- `result.data` of `playdeveloper.purchases.subscriptions.get`:
the fields the handlers read.  `none` models an absent field. -/
structure SubscriptionData where
  expiryTimeMillis : Option String
  paymentState : Option Int
  cancelReason : Option Int
deriving DecidableEq

/-- `parseInt(data.expiryTimeMillis || "0", 10)` — an absent or empty
field falls back to the string `"0"` before parsing. -/
def expiryOf (d : SubscriptionData) : Option Int :=
  jsParseInt
    (match d.expiryTimeMillis with
     | none => "0"
     | some s => if s = "" then "0" else s)

/-- Status resolution shared by `/api/googleplay/verify` (lines 185-195) and
`/api/googleplay/rtnd` (lines 281-291):
`let status = "cancelled"; if (expiry > Date.now()) status =
paymentState === 1 && cancelReason == null ? "active" : "pending";`
(`NaN > now` is false, so an unparseable expiry also yields `"cancelled"`). -/
def resolveStatus (d : SubscriptionData) (now : Int) : String :=
  match expiryOf d with
  | some e =>
    if now < e then
      if d.paymentState = some 1 ∧ d.cancelReason = none then "active" else "pending"
    else "cancelled"
  | none => "cancelled"

/-- Product-to-tier table in `updateFirestoreEntitlement` (lines 84-89). -/
def tierFor (productId : String) : String :=
  if productId = "genevolut_grandmaster" then "Grandmaster"
  else if productId = "genevolut_champ" then "Champ"
  else "Free"

/-- `status === "active" ? tier : "Free"` (line 91). -/
def normalizedTier (status productId : String) : String :=
  if status = "active" then tierFor productId else "Free"

/-- `users/{uid}` fields written by `updateFirestoreEntitlement`. -/
structure GUserDoc where
  subscription_tier : String
  subscriptionStatus : String
  provider : String
  productId : String
  purchaseToken : String
deriving DecidableEq

/-- `users/{uid}/subscriptions/current` fields written by
`updateFirestoreEntitlement`. -/
structure GSubDoc where
  tier : String
  status : String
  productId : String
  purchaseToken : String
deriving DecidableEq

/-- One `purchase_audits` record. RTDN writes keyed documents
(`auditRef.set`), the verify endpoint appends auto-id records
(`writeAuditRecord` uses `.add`). -/
structure AuditDoc where
  userId : String
  productId : String
  purchaseToken : String
  status : String
  source : String
  notificationType : Option String
deriving DecidableEq

/-- Firestore state of the Google Play backend. -/
structure GDb where
  users : List (String × GUserDoc)
  subs : List (String × GSubDoc)
  audits : List (String × AuditDoc)
  auditAdds : List AuditDoc
deriving DecidableEq

/-- `updateFirestoreEntitlement` (lines 76-118): merge-set of the user doc
and of `subscriptions/current` (the merge writes every modelled field, so it
acts as a full set here). -/
def updateFirestoreEntitlement (db : GDb) (userId productId purchaseToken status : String) :
    GDb :=
  let t := normalizedTier status productId
  { db with
    users := setDoc db.users userId ⟨t, status, "google_play", productId, purchaseToken⟩,
    subs := setDoc db.subs userId ⟨t, status, productId, purchaseToken⟩ }

/-- `writeAuditRecord` (lines 123-128): `.add` with an auto-generated id. -/
def writeAuditRecord (db : GDb) (rec : AuditDoc) : GDb :=
  { db with auditAdds := db.auditAdds ++ [rec] }

/-- Decoded `subscriptionNotification` of an RTDN Pub/Sub message. -/
structure SubNotification where
  subscriptionId : String
  purchaseToken : String
  notificationType : String
deriving DecidableEq

/-- Line 249: `const auditId = purchaseToken_notificationType`. -/
def auditId (sub : SubNotification) : String :=
  sub.purchaseToken ++ "_" ++ sub.notificationType

/-- `users/{*}/subscriptions` collection-group query by `purchaseToken`
(lines 258-269), yielding the owning user id. -/
def findSubByToken (db : GDb) (tok : String) : Option String :=
  (db.subs.find? (fun p => p.2.purchaseToken = tok)).map (·.1)

/-- `/api/googleplay/rtnd` (lines 215-325), starting from the decoded
subscription notification: idempotency check on the keyed audit doc,
user lookup by token, re-verify (the fetched `play` response is an input),
entitlement update, keyed audit write.  The second component is the HTTP
status; the handler always acks 200. -/
def rtdnHandler (db : GDb) (sub : SubNotification) (play : SubscriptionData) (now : Int) :
    GDb × Nat :=
  let aid := auditId sub
  match getDoc db.audits aid with
  | some _ => (db, 200)
  | none =>
    match findSubByToken db sub.purchaseToken with
    | none => (db, 200)
    | some userId =>
      let status := resolveStatus play now
      let db1 := updateFirestoreEntitlement db userId sub.subscriptionId sub.purchaseToken status
      ({ db1 with
          audits := db1.audits ++
            [(aid, ⟨userId, sub.subscriptionId, sub.purchaseToken, status, "rtdn",
                    some sub.notificationType⟩)] }, 200)

/-- State after one RTDN delivery. -/
def rtdnStep (db : GDb) (sub : SubNotification) (play : SubscriptionData) (now : Int) : GDb :=
  (rtdnHandler db sub play now).1

/-- Decoded Play Integrity token payload (lines 151-157). -/
structure IntegrityPayload where
  deviceVerdicts : List String
  appVerdicts : List String
  licensingVerdict : Option String
deriving DecidableEq

/-- Lines 159-162: the three verdicts required for a trusted device. -/
def trustedOf (p : IntegrityPayload) : Bool :=
  p.deviceVerdicts.contains "MEETS_DEVICE_INTEGRITY" &&
  p.appVerdicts.contains "PLAY_RECOGNIZED" &&
  p.licensingVerdict = some "LICENSED"

/-- Response of the verify endpoint: HTTP status, resolved status string
(when 200), and the parsed expiry echoed back. -/
structure VerifyResponse where
  httpStatus : Nat
  status : Option String
  expiryTimeMillis : Option Int
deriving DecidableEq

/-- `/api/googleplay/verify` (lines 134-210): required-field check,
integrity verdict, billing re-verify (response is an input), status
resolution, audit write via `.add`.  The current revision performs no
entitlement write here ("Integrity + Audit ONLY"). -/
def verifyHandler (db : GDb) (packageName productId purchaseToken userId integrityToken : String)
    (payload : IntegrityPayload) (play : SubscriptionData) (now : Int) :
    GDb × VerifyResponse :=
  if packageName = "" ∨ productId = "" ∨ purchaseToken = "" ∨ userId = "" ∨ integrityToken = ""
  then (db, ⟨400, none, none⟩)
  else if trustedOf payload = false then
    (writeAuditRecord db ⟨userId, productId, purchaseToken, "integrity_failed", "verify", none⟩,
     ⟨403, none, none⟩)
  else
    let status := resolveStatus play now
    (writeAuditRecord db ⟨userId, productId, purchaseToken, status, "verify", none⟩,
     ⟨200, some status, expiryOf play⟩)


/-! ## PayPal + Stripe backend (src/unnamed/part_006) -/

/-- `users/{uid}` fields the PayPal/Stripe handlers read or write; every
field is optional because merge-sets write subsets of them. -/
structure PUserDoc where
  subscriptionId : Option String
  planId : Option String
  subscriptionStatus : Option String
  payerEmail : Option String
  subscription_tier : Option String
  stripeSubscriptionId : Option String
  platform : Option String
  provider : Option String
  credits : Option Int
deriving DecidableEq

/-- A freshly created user document (merge-set on a missing doc). -/
def emptyPUser : PUserDoc :=
  ⟨none, none, none, none, none, none, none, none, none⟩

/-- `users/{uid}/subscriptions/current` as written by this server
(full `set`, no merge). -/
structure PSubDoc where
  status : String
  tier : Option String
  planId : Option String
  subscriptionId : Option String
  payerEmail : Option String
  platform : Option String
  provider : Option String
deriving DecidableEq

/-- Firestore state of the PayPal/Stripe backend plus the outbound
provider requests it issues.  `cancels` records PayPal
`/v1/billing/subscriptions/{id}/cancel` calls (id, reason);
`stripeDeletes` records `stripe.subscriptions.del` calls.  `audits` is the
`purchase_audits` ledger: no handler in this server ever writes to it. -/
structure PDb where
  users : List (String × PUserDoc)
  subs : List (String × PSubDoc)
  cancels : List (String × String)
  stripeDeletes : List String
  audits : List AuditDoc
deriving DecidableEq

/-- Firestore `set(..., {merge:true})` on `users/{uid}`: apply the written
fields `f` to the existing doc, or to a fresh empty doc when absent. -/
def mergeUser : List (String × PUserDoc) → String → (PUserDoc → PUserDoc) →
    List (String × PUserDoc)
  | [], uid, f => [(uid, f emptyPUser)]
  | (k, d) :: t, uid, f =>
    if k = uid then (uid, f d) :: t else (k, d) :: mergeUser t uid f

/-- JS truthiness of a possibly-missing string. -/
def truthy : Option String → Bool
  | none => false
  | some s => !(s = "")

/-- JS `x || dflt` for a possibly-missing string. -/
def jsOr : Option String → String → String
  | none, d => d
  | some s, d => if s = "" then d else s

/-- `String.prototype.includes`. -/
def containsSub (s pat : String) : Bool :=
  (List.range (s.length + 1)).any (fun i => pat.toList.isPrefixOf (s.toList.drop i))

/-- The duplicate-identity predicate of the PayPal ACTIVATED branch
(lines 418-422): a user doc with the same `payerEmail` and a different id. -/
def conflictB (uid pe : String) (w : String × PUserDoc) : Bool :=
  w.2.payerEmail = some pe && !(w.1 = uid)

/-- Cancellation reason sent on a duplicate PayPal email (line 429). -/
def dupEmailReason : String := "Duplicate PayPal email used by another account."

/-- Cancellation reason sent after a failed payment (line 519). -/
def autoCancelReason : String := "Auto-cancelled after failed payment"

/-- `resource` fields of a PayPal webhook event. -/
structure PayPalResource where
  id : String
  plan_id : Option String
  custom_id : Option String
  subscriberEmail : Option String
deriving DecidableEq

/-- `BILLING.SUBSCRIPTION.ACTIVATED` branch (lines 415-463), after the
payer-email and user-ref guards: conflict lookup, then either a provider
cancellation (no Firestore write) or the activation write. -/
def paypalActivate (db : PDb) (sid planId uid pe : String) : PDb :=
  match db.users.find? (conflictB uid pe) with
  | some _ => { db with cancels := db.cancels ++ [(sid, dupEmailReason)] }
  | none =>
    let tier := if containsSub planId "GM" then "Grandmaster" else "Champ"
    { db with
      users := mergeUser db.users uid (fun d =>
        { d with subscriptionId := some sid, planId := some planId,
                 subscriptionStatus := some "active", payerEmail := some pe,
                 subscription_tier := some tier }),
      subs := setDoc db.subs uid ⟨"active", some tier, some planId, some sid, some pe, none, none⟩ }

/-- `BILLING.SUBSCRIPTION.CANCELLED` branch (lines 465-483). -/
def paypalCancelled (db : PDb) (uid : String) : PDb :=
  { db with
    users := mergeUser db.users uid (fun d =>
      { d with subscriptionStatus := some "cancelled", subscription_tier := some "Free" }),
    subs := setDoc db.subs uid ⟨"cancelled", some "Free", none, none, none, none, none⟩ }

/-- SUSPENDED/EXPIRED/PAYMENT.FAILED branches merge only the status field. -/
def statusMerge (db : PDb) (uid status : String) : PDb :=
  { db with
    users := mergeUser db.users uid (fun d => { d with subscriptionStatus := some status }) }

/-- `/paypal/webhook` (lines 389-547): payload-completeness guard, then the
event-type switch.  Always acks 200. -/
def paypalWebhook (db : PDb) (event_type : String) (r? : Option PayPalResource) : PDb × Nat :=
  match r? with
  | none => (db, 200)
  | some r =>
    if event_type = "" ∨ r.id = "" then (db, 200)
    else
      let userId := jsOr r.custom_id "N/A"
      let planId := jsOr r.plan_id "N/A"
      if event_type = "BILLING.SUBSCRIPTION.ACTIVATED" then
        match r.subscriberEmail with
        | some pe =>
          if ¬pe = "" ∧ ¬userId = "N/A" then (paypalActivate db r.id planId userId pe, 200)
          else (db, 200)
        | none => (db, 200)
      else if event_type = "BILLING.SUBSCRIPTION.CANCELLED" then
        if ¬userId = "N/A" then (paypalCancelled db userId, 200) else (db, 200)
      else if event_type = "BILLING.SUBSCRIPTION.SUSPENDED" then
        if ¬userId = "N/A" then (statusMerge db userId "suspended", 200) else (db, 200)
      else if event_type = "BILLING.SUBSCRIPTION.EXPIRED" then
        if ¬userId = "N/A" then (statusMerge db userId "expired", 200) else (db, 200)
      else if event_type = "BILLING.SUBSCRIPTION.PAYMENT.FAILED" then
        if ¬userId = "N/A" then
          ({ statusMerge db userId "payment_failed" with
              cancels := db.cancels ++ [(r.id, autoCancelReason)] }, 200)
        else (db, 200)
      else (db, 200)

/-- `String.prototype.toLowerCase` restricted to ASCII, which covers the
tier names the handlers compare. -/
def lowerAscii (s : String) : String :=
  String.mk (s.toList.map (fun c => if c.isUpper then Char.ofNat (c.toNat + 32) else c))

/-- Credit allocation in `updateSubscriptionInFirestore` (lines 60-66). -/
def creditsFor (t : String) : Int :=
  if lowerAscii t = "grandmaster" then 100
  else if lowerAscii t = "champ" then 10
  else 2

/-- `updateSubscriptionInFirestore` (lines 41-79): merge-set of the user doc
and full set of `subscriptions/current`. -/
def updateSubscriptionInFirestore (db : PDb) (uid : String) (subscriptionId : Option String)
    (tier status platform : String) (customerIdentifier : Option String) : PDb :=
  let isActive := status = "active" && truthy subscriptionId
  let nt := if isActive then tier else "Free"
  { db with
    users := mergeUser db.users uid (fun d =>
      let d1 := { d with subscription_tier := some nt, subscriptionStatus := some status }
      let d2 :=
        if platform = "stripe" then
          { d1 with stripeSubscriptionId := subscriptionId, payerEmail := customerIdentifier,
                    platform := some "stripe", provider := some "stripe" }
        else d1
      { d2 with credits := some (creditsFor nt) }),
    subs := setDoc db.subs uid
      ⟨status, some nt, none, subscriptionId, customerIdentifier, some platform, some platform⟩ }

/-- A verified Stripe event together with the results of the external
Stripe lookups the handler performs (`customers.retrieve` for checkout,
`subscriptions.retrieve` for failed invoices). -/
structure StripeEventObj where
  type : String
  subscription : Option String
  metaUid : Option String
  metaTier : Option String
  customer : Option String
  status : Option String
  id : Option String
  customerEmail : Option String
  rMetaUid : Option String
  rMetaTier : Option String
deriving DecidableEq

/-- Event-type switch of the Stripe webhook (lines 100-181). -/
def processStripeEvent (db : PDb) (e : StripeEventObj) : PDb :=
  if e.type = "checkout.session.completed" then
    match e.metaUid, e.subscription, e.metaTier with
    | some uid, some subId, some tier =>
      if ¬uid = "" ∧ ¬subId = "" ∧ ¬tier = "" then
        if db.users.any (fun w => w.2.payerEmail = e.customerEmail && !(w.1 = uid)) then
          { db with stripeDeletes := db.stripeDeletes ++ [subId] }
        else
          updateSubscriptionInFirestore db uid (some subId) tier "active" "stripe" e.customerEmail
      else db
    | _, _, _ => db
  else if e.type = "invoice.paid" ∨ e.type = "customer.subscription.created" ∨
          e.type = "customer.subscription.updated" then
    match e.metaUid, e.metaTier, e.customer with
    | some uid, some tier, some customer =>
      if ¬uid = "" ∧ ¬tier = "" ∧ ¬customer = "" then
        updateSubscriptionInFirestore db uid e.id tier (jsOr e.status "") "stripe" (some customer)
      else db
    | _, _, _ => db
  else if e.type = "customer.subscription.deleted" then
    match e.metaUid with
    | some uid =>
      if ¬uid = "" then
        updateSubscriptionInFirestore db uid none "Free" "cancelled" "stripe" none
      else db
    | none => db
  else if e.type = "invoice.payment_failed" then
    match e.rMetaUid, e.rMetaTier, e.subscription with
    | some uid, some tier, some subId =>
      if ¬uid = "" ∧ ¬tier = "" ∧ ¬subId = "" then
        updateSubscriptionInFirestore db uid (some subId) tier "payment_failed" "stripe" e.customer
      else db
    | _, _, _ => db
  else db

/-- `/webhook/stripe` (lines 82-182): `stripe.webhooks.constructEvent`
either yields a verified event (`some e`) or throws (`none`).  On failure
the handler answers 400 and touches nothing; on success it acks 200 and
processes the event. -/
def stripeWebhook (db : PDb) (event? : Option StripeEventObj) : PDb × Nat :=
  match event? with
  | none => (db, 400)
  | some e => (processStripeEvent db e, 200)


/-! ## Helper lemmas about the store model -/

theorem getDoc_setDoc {α : Type} (l : List (String × α)) (k : String) (v : α) :
    getDoc (setDoc l k v) k = some v := by
  induction l with
  | nil => simp [setDoc, getDoc]
  | cons hd t ih =>
    obtain ⟨k', d⟩ := hd
    by_cases hk : k' = k
    · simp [setDoc, hk, getDoc]
    · simp [setDoc, hk, getDoc, ih]

theorem getDoc_none_keyCount {α : Type} {l : List (String × α)} {k : String}
    (h : getDoc l k = none) : keyCount l k = 0 := by
  induction l with
  | nil => rfl
  | cons hd t ih =>
    obtain ⟨k', d⟩ := hd
    by_cases hk : k' = k
    · simp [getDoc, hk] at h
    · simp [getDoc, hk] at h
      simp [keyCount, hk, ih h]

theorem keyCount_zero_getDoc {α : Type} {l : List (String × α)} {k : String}
    (h : keyCount l k = 0) : getDoc l k = none := by
  induction l with
  | nil => rfl
  | cons hd t ih =>
    obtain ⟨k', d⟩ := hd
    by_cases hk : k' = k
    · simp [keyCount, hk] at h
    · simp [keyCount, hk] at h
      simp [getDoc, hk, ih h]

theorem keyCount_append {α : Type} (l l' : List (String × α)) (k : String) :
    keyCount (l ++ l') k = keyCount l k + keyCount l' k := by
  induction l with
  | nil => simp [keyCount]
  | cons hd t ih =>
    obtain ⟨k', d⟩ := hd
    simp [keyCount, ih]
    omega

theorem getDoc_append_single_self {α : Type} {l : List (String × α)} {k : String} (v : α)
    (h : getDoc l k = none) : getDoc (l ++ [(k, v)]) k = some v := by
  induction l with
  | nil => simp [getDoc]
  | cons hd t ih =>
    obtain ⟨k', d⟩ := hd
    by_cases hk : k' = k
    · simp [getDoc, hk] at h
    · simp [getDoc, hk] at h ⊢
      exact ih h

/-! ## Claims about the Status Resolver -/

/-- C2 counterexample: a provider response that is already expired
(`expiry = 500 <= now = 1000`) with payment received and no cancel reason
resolves to `"cancelled"`, not to the canonical `Expired` status — the
resolver has no expired branch at all. -/
theorem resolveStatus_expired_is_cancelled_cex :
    resolveStatus ⟨some "500", some 1, none⟩ 1000 = "cancelled" ∧
    ¬resolveStatus ⟨some "500", some 1, none⟩ 1000 = "expired" := by
  decide

/-- C2 (amended): for every provider subscription response whose parsed
expiry is `<= now`, the resolver returns `"cancelled"` (canonical
`Cancelled`, the resolver's default branch), regardless of the
`paymentState` and `cancelReason` values. -/
theorem resolveStatus_expiry_dominates (d : SubscriptionData) (now e : Int)
    (he : expiryOf d = some e) (hle : e ≤ now) :
    resolveStatus d now = "cancelled" := by
  unfold resolveStatus
  rw [he]
  simp [not_lt.mpr hle]

theorem resolveStatus_expiry_dominates_witness :
    resolveStatus ⟨some "500", some 3, some 1⟩ 600 = "cancelled" :=
  resolveStatus_expiry_dominates ⟨some "500", some 3, some 1⟩ 600 500 (by decide) (by decide)

/-- C5 counterexample: an unexpired response with payment received
(`paymentState = 1`) and a cancellation reason present (`cancelReason = 0`)
resolves to `"pending"`, not `"cancelled"` as the claim states. -/
theorem resolveStatus_received_cancelreason_cex :
    resolveStatus ⟨some "2000", some 1, some 0⟩ 1000 = "pending" ∧
    ¬resolveStatus ⟨some "2000", some 1, some 0⟩ 1000 = "cancelled" := by
  decide

/-- C5 (amended): when no earlier rule applies (not expired) and payment is
confirmed received but a cancellation reason is present, the resolver
returns `"pending"` — any unexpired response that misses the
`paymentState === 1 && cancelReason == null` conjunction is `"pending"`. -/
theorem resolveStatus_received_cancelreason_pending (d : SubscriptionData) (now e r : Int)
    (he : expiryOf d = some e) (hgt : now < e)
    (hp : d.paymentState = some 1) (hc : d.cancelReason = some r) :
    resolveStatus d now = "pending" := by
  unfold resolveStatus
  rw [he]
  simp [hgt, hc]

theorem resolveStatus_received_cancelreason_pending_witness :
    resolveStatus ⟨some "2000", some 1, some 0⟩ 1500 = "pending" :=
  resolveStatus_received_cancelreason_pending ⟨some "2000", some 1, some 0⟩ 1500 2000 0
    (by decide) (by decide) (by decide) (by decide)

/-- C10: a provider response whose `expiryTimeMillis` is absent or the
empty string is parsed as expiry 0, so (for any non-negative clock) the
resolver falls to the default `"cancelled"` branch and can never return
`"active"` or `"pending"`. -/
theorem resolveStatus_missing_expiry_cancelled (d : SubscriptionData) (now : Int)
    (h0 : 0 ≤ now) (h : d.expiryTimeMillis = none ∨ d.expiryTimeMillis = some "") :
    resolveStatus d now = "cancelled" ∧
    ¬resolveStatus d now = "active" ∧ ¬resolveStatus d now = "pending" := by
  have he : expiryOf d = some 0 := by
    rcases h with h | h <;> simp [expiryOf, h] <;> decide
  have hc : resolveStatus d now = "cancelled" := by
    unfold resolveStatus
    rw [he]
    simp [not_lt.mpr h0]
  refine ⟨hc, ?_, ?_⟩ <;> rw [hc] <;> decide

theorem resolveStatus_missing_expiry_cancelled_witness :
    resolveStatus ⟨none, some 1, none⟩ 1000 = "cancelled" ∧
    ¬resolveStatus ⟨none, some 1, none⟩ 1000 = "active" ∧
    ¬resolveStatus ⟨none, some 1, none⟩ 1000 = "pending" :=
  resolveStatus_missing_expiry_cancelled ⟨none, some 1, none⟩ 1000 (by decide) (Or.inl rfl)

/-! ## Claim about the Entitlement Writer tier derivation -/

/-- C4: each entitlement write persists (in the user doc and in
`subscriptions/current`) the tier `normalizedTier status productId`, a pure
function of (status, productRef): `genevolut_grandmaster ↦ Grandmaster`,
`genevolut_champ ↦ Champ`, anything else `↦ Free`, and every status other
than `"active"` forces the baseline `"Free"` tier. -/
theorem entitlement_tier_derivation (db : GDb) (uid productId tok status : String) :
    getDoc (updateFirestoreEntitlement db uid productId tok status).users uid
      = some ⟨normalizedTier status productId, status, "google_play", productId, tok⟩ ∧
    getDoc (updateFirestoreEntitlement db uid productId tok status).subs uid
      = some ⟨normalizedTier status productId, status, productId, tok⟩ ∧
    (status ≠ "active" → normalizedTier status productId = "Free") ∧
    normalizedTier "active" "genevolut_grandmaster" = "Grandmaster" ∧
    normalizedTier "active" "genevolut_champ" = "Champ" ∧
    (productId ≠ "genevolut_grandmaster" → productId ≠ "genevolut_champ" →
      normalizedTier "active" productId = "Free") := by
  refine ⟨getDoc_setDoc _ _ _, getDoc_setDoc _ _ _, ?_, by decide, by decide, ?_⟩
  · intro hs
    simp [normalizedTier, hs]
  · intro h1 h2
    simp [normalizedTier, tierFor, h1, h2]

theorem entitlement_tier_derivation_witness :
    normalizedTier "cancelled" "genevolut_grandmaster" = "Free" ∧
    normalizedTier "active" "some_other_product" = "Free" :=
  ⟨((entitlement_tier_derivation ⟨[], [], [], []⟩ "u1" "genevolut_grandmaster" "tok-1"
      "cancelled").2.2.1) (by decide),
   ((entitlement_tier_derivation ⟨[], [], [], []⟩ "u1" "some_other_product" "tok-1"
      "active").2.2.2.2.2) (by decide) (by decide)⟩

/-! ## Claims about the RTDN pipeline -/

theorem updateFirestoreEntitlement_audits (db : GDb) (u productId tok status : String) :
    (updateFirestoreEntitlement db u productId tok status).audits = db.audits := rfl

/-- C1: a second delivery of an RTDN notification whose idempotency key
`purchaseToken_notificationType` was already processed is acknowledged with
200 and mutates nothing: delivering the event twice leaves the state of the
single delivery, and (when the first delivery completed processing) exactly
one audit record exists for the key. -/
theorem rtdn_second_delivery_noop (db : GDb) (sub : SubNotification)
    (p1 p2 : SubscriptionData) (n1 n2 : Int) :
    rtdnHandler (rtdnStep db sub p1 n1) sub p2 n2 = (rtdnStep db sub p1 n1, 200) ∧
    (keyCount db.audits (auditId sub) = 0 →
      (findSubByToken db sub.purchaseToken).isSome = true →
      keyCount (rtdnStep (rtdnStep db sub p1 n1) sub p2 n2).audits (auditId sub) = 1) := by
  cases heq : getDoc db.audits (auditId sub) with
  | some a =>
    have hstep : rtdnStep db sub p1 n1 = db := by
      simp [rtdnStep, rtdnHandler, heq]
    rw [hstep]
    constructor
    · simp [rtdnHandler, heq]
    · intro hcnt _
      rw [keyCount_zero_getDoc hcnt] at heq
      cases heq
  | none =>
    cases hfind : findSubByToken db sub.purchaseToken with
    | none =>
      have hstep : rtdnStep db sub p1 n1 = db := by
        simp [rtdnStep, rtdnHandler, heq, hfind]
      rw [hstep]
      constructor
      · simp [rtdnHandler, heq, hfind]
      · intro _ hs
        simp at hs
    | some uid =>
      have hau : (rtdnStep db sub p1 n1).audits = db.audits ++
          [(auditId sub, ⟨uid, sub.subscriptionId, sub.purchaseToken,
            resolveStatus p1 n1, "rtdn", some sub.notificationType⟩)] := by
        simp [rtdnStep, rtdnHandler, heq, hfind, updateFirestoreEntitlement]
      have hget : getDoc (rtdnStep db sub p1 n1).audits (auditId sub) =
          some ⟨uid, sub.subscriptionId, sub.purchaseToken,
            resolveStatus p1 n1, "rtdn", some sub.notificationType⟩ := by
        rw [hau]
        exact getDoc_append_single_self _ heq
      have hsecond : rtdnHandler (rtdnStep db sub p1 n1) sub p2 n2 =
          (rtdnStep db sub p1 n1, 200) := by
        simp [rtdnHandler, hget]
      refine ⟨hsecond, fun _ _ => ?_⟩
      show keyCount (rtdnHandler (rtdnStep db sub p1 n1) sub p2 n2).1.audits (auditId sub) = 1
      rw [hsecond]
      show keyCount (rtdnStep db sub p1 n1).audits (auditId sub) = 1
      rw [hau, keyCount_append, getDoc_none_keyCount heq]
      simp [keyCount]

def gdb1 : GDb := ⟨[], [("u1", ⟨"Free", "cancelled", "genevolut_champ", "tok-1"⟩)], [], []⟩

def snot1 : SubNotification := ⟨"genevolut_champ", "tok-1", "SUBSCRIPTION_PURCHASED"⟩

def play1 : SubscriptionData := ⟨some "9999", some 1, none⟩

theorem rtdn_second_delivery_noop_witness :
    rtdnHandler (rtdnStep gdb1 snot1 play1 5) snot1 play1 5 = (rtdnStep gdb1 snot1 play1 5, 200) ∧
    keyCount (rtdnStep (rtdnStep gdb1 snot1 play1 5) snot1 play1 5).audits (auditId snot1) = 1 :=
  ⟨(rtdn_second_delivery_noop gdb1 snot1 play1 play1 5 5).1,
   (rtdn_second_delivery_noop gdb1 snot1 play1 play1 5 5).2 (by decide) (by decide)⟩

/-- C7: processing an RTDN notification either writes nothing or appends
exactly one audit document whose key is `purchaseToken ++ "_" ++
notificationType`, and if every audit key was unique beforehand it stays
unique afterwards (the key identifies the logical occurrence). -/
theorem rtdn_audit_key_format (db : GDb) (sub : SubNotification)
    (play : SubscriptionData) (now : Int) :
    ((rtdnStep db sub play now).audits = db.audits ∨
      ∃ rec, (rtdnStep db sub play now).audits
        = db.audits ++ [(sub.purchaseToken ++ "_" ++ sub.notificationType, rec)]) ∧
    (∀ k, keyCount db.audits k ≤ 1 → keyCount (rtdnStep db sub play now).audits k ≤ 1) := by
  cases heq : getDoc db.audits (auditId sub) with
  | some a =>
    have hstep : rtdnStep db sub play now = db := by
      simp [rtdnStep, rtdnHandler, heq]
    rw [hstep]
    exact ⟨Or.inl rfl, fun k hk => hk⟩
  | none =>
    cases hfind : findSubByToken db sub.purchaseToken with
    | none =>
      have hstep : rtdnStep db sub play now = db := by
        simp [rtdnStep, rtdnHandler, heq, hfind]
      rw [hstep]
      exact ⟨Or.inl rfl, fun k hk => hk⟩
    | some uid =>
      have hau : (rtdnStep db sub play now).audits = db.audits ++
          [(auditId sub, ⟨uid, sub.subscriptionId, sub.purchaseToken,
            resolveStatus play now, "rtdn", some sub.notificationType⟩)] := by
        simp [rtdnStep, rtdnHandler, heq, hfind, updateFirestoreEntitlement]
      constructor
      · exact Or.inr ⟨_, hau⟩
      · intro k hk
        rw [hau, keyCount_append]
        by_cases hkk : k = auditId sub
        · subst hkk
          rw [getDoc_none_keyCount heq]
          simp [keyCount]
        · have hne : ¬auditId sub = k := fun h => hkk h.symm
          have h0 : keyCount [(auditId sub, (⟨uid, sub.subscriptionId, sub.purchaseToken,
              resolveStatus play now, "rtdn", some sub.notificationType⟩ : AuditDoc))] k = 0 := by
            simp [keyCount, hne]
          omega

theorem rtdn_audit_key_format_witness :
    ((rtdnStep gdb1 snot1 play1 5).audits = gdb1.audits ∨
      ∃ rec, (rtdnStep gdb1 snot1 play1 5).audits
        = gdb1.audits ++ [("tok-1" ++ "_" ++ "SUBSCRIPTION_PURCHASED", rec)]) ∧
    keyCount (rtdnStep gdb1 snot1 play1 5).audits "tok-1_SUBSCRIPTION_PURCHASED" ≤ 1 :=
  ⟨(rtdn_audit_key_format gdb1 snot1 play1 5).1,
   (rtdn_audit_key_format gdb1 snot1 play1 5).2 "tok-1_SUBSCRIPTION_PURCHASED" (by decide)⟩

/-- C9: an RTDN notification whose purchase token matches no stored
subscription document is acknowledged with 200 and writes nothing — the
idempotency key is not reserved — so a later redelivery of the same
notification against a state where the subscription exists (and the key is
still unwritten) is fully processed: entitlement applied and the keyed
audit record appended. -/
theorem rtdn_unknown_token_noop (db db' : GDb) (sub : SubNotification)
    (play play' : SubscriptionData) (now now' : Int) (uid : String) :
    (findSubByToken db sub.purchaseToken = none → rtdnHandler db sub play now = (db, 200)) ∧
    (getDoc db'.audits (auditId sub) = none →
      findSubByToken db' sub.purchaseToken = some uid →
      rtdnHandler db' sub play' now' =
        ({ updateFirestoreEntitlement db' uid sub.subscriptionId sub.purchaseToken
            (resolveStatus play' now') with
          audits := db'.audits ++ [(auditId sub,
            ⟨uid, sub.subscriptionId, sub.purchaseToken, resolveStatus play' now',
             "rtdn", some sub.notificationType⟩)] }, 200)) := by
  constructor
  · intro hfind
    cases heq : getDoc db.audits (auditId sub) with
    | some a => simp [rtdnHandler, heq]
    | none => simp [rtdnHandler, heq, hfind]
  · intro heq hfind
    simp [rtdnHandler, heq, hfind, updateFirestoreEntitlement]

theorem rtdn_unknown_token_noop_witness :
    rtdnHandler ⟨[], [], [], []⟩ snot1 play1 5 = (⟨[], [], [], []⟩, 200) ∧
    rtdnHandler gdb1 snot1 play1 5 =
      ({ updateFirestoreEntitlement gdb1 "u1" snot1.subscriptionId snot1.purchaseToken
          (resolveStatus play1 5) with
        audits := gdb1.audits ++ [(auditId snot1,
          ⟨"u1", snot1.subscriptionId, snot1.purchaseToken, resolveStatus play1 5,
           "rtdn", some snot1.notificationType⟩)] }, 200) :=
  ⟨(rtdn_unknown_token_noop ⟨[], [], [], []⟩ gdb1 snot1 play1 play1 5 5 "u1").1 (by decide),
   (rtdn_unknown_token_noop ⟨[], [], [], []⟩ gdb1 snot1 play1 play1 5 5 "u1").2
     (by decide) (by decide)⟩

/-! ## Claims about the verify endpoint and the Stripe signature gate -/

def okIntegrity : IntegrityPayload :=
  ⟨["MEETS_DEVICE_INTEGRITY"], ["PLAY_RECOGNIZED"], some "LICENSED"⟩

def playActive : SubscriptionData := ⟨some "2000", some 1, none⟩

/-- C6 counterexample: a successful verify call that resolves `"active"`
leaves the `users` and `subscriptions` collections untouched — the current
revision's verify endpoint never invokes the Entitlement Writer
(`updateFirestoreEntitlement`), contrary to the claim that it applies the
result through the same pipeline as push notifications. -/
theorem verify_no_entitlement_write_cex :
    (verifyHandler ⟨[], [], [], []⟩ "com.app" "genevolut_champ" "tok-1" "u1" "itok"
      okIntegrity playActive 1000).2.status = some "active" ∧
    (verifyHandler ⟨[], [], [], []⟩ "com.app" "genevolut_champ" "tok-1" "u1" "itok"
      okIntegrity playActive 1000).1.users = [] ∧
    (verifyHandler ⟨[], [], [], []⟩ "com.app" "genevolut_champ" "tok-1" "u1" "itok"
      okIntegrity playActive 1000).1.subs = [] := by
  decide

/-- C6 (amended): a successful synchronous verification re-verifies against
the provider (whose response is the input `play`), resolves the canonical
status with exactly the resolver the push pipeline uses (`resolveStatus`),
returns it to the caller with HTTP 200 — but applies nothing through the
Entitlement Writer: the only write is one audit record with source
`"verify"`. -/
theorem verify_resolves_without_entitlement (db : GDb)
    (pkg productId tok uid itok : String) (ip : IntegrityPayload)
    (play : SubscriptionData) (now : Int)
    (h1 : ¬pkg = "") (h2 : ¬productId = "") (h3 : ¬tok = "") (h4 : ¬uid = "")
    (h5 : ¬itok = "") (ht : trustedOf ip = true) :
    verifyHandler db pkg productId tok uid itok ip play now
      = ({ db with auditAdds := db.auditAdds ++
            [⟨uid, productId, tok, resolveStatus play now, "verify", none⟩] },
         ⟨200, some (resolveStatus play now), expiryOf play⟩) := by
  unfold verifyHandler
  rw [if_neg (by simp [h1, h2, h3, h4, h5]), if_neg (by simp [ht])]
  rfl

theorem verify_resolves_without_entitlement_witness :
    verifyHandler gdb1 "com.app" "genevolut_champ" "tok-1" "u1" "itok" okIntegrity
        playActive 1000
      = ({ gdb1 with auditAdds := gdb1.auditAdds ++
            [⟨"u1", "genevolut_champ", "tok-1", resolveStatus playActive 1000, "verify", none⟩] },
         ⟨200, some (resolveStatus playActive 1000), expiryOf playActive⟩) :=
  verify_resolves_without_entitlement gdb1 "com.app" "genevolut_champ" "tok-1" "u1" "itok"
    okIntegrity playActive 1000 (by decide) (by decide) (by decide) (by decide) (by decide)
    (by decide)

/-- C8: when Stripe signature verification fails (`constructEvent` throws,
modelled as `none`), the webhook answers HTTP 400 and the event causes no
state change of any kind: no user/entitlement write, no audit write, no
provider cancellation or deletion call. -/
theorem stripe_signature_failure_no_side_effects (db : PDb) :
    stripeWebhook db none = (db, 400) ∧
    (stripeWebhook db none).1.users = db.users ∧
    (stripeWebhook db none).1.subs = db.subs ∧
    (stripeWebhook db none).1.audits = db.audits ∧
    (stripeWebhook db none).1.cancels = db.cancels ∧
    (stripeWebhook db none).1.stripeDeletes = db.stripeDeletes :=
  ⟨rfl, rfl, rfl, rfl, rfl, rfl⟩

/-! ## Claim about identity-conflict resolution (PayPal webhook) -/

/-- A user document holding an active entitlement bound to payer identity `p`. -/
def activeForB (p : String) (u : String × PUserDoc) : Bool :=
  u.2.subscriptionStatus = some "active" && u.2.payerEmail = some p

/-- At most one user id appears among the active holders of identity `p`. -/
def exclusiveOn (p : String) (l : List (String × PUserDoc)) : Prop :=
  ∀ u ∈ l, ∀ v ∈ l, activeForB p u = true → activeForB p v = true → u.1 = v.1

/-- Conflict-exclusivity invariant on the PayPal/Stripe store. -/
def activeExclusive (p : String) (db : PDb) : Prop :=
  exclusiveOn p db.users

theorem mem_mergeUser {l : List (String × PUserDoc)} {uid : String} {f : PUserDoc → PUserDoc}
    {u : String × PUserDoc} (h : u ∈ mergeUser l uid f) :
    u ∈ l ∨ ∃ d, u = (uid, f d) := by
  induction l with
  | nil =>
    simp [mergeUser] at h
    exact Or.inr ⟨emptyPUser, h⟩
  | cons hd t ih =>
    obtain ⟨k, d⟩ := hd
    by_cases hk : k = uid
    · subst hk
      simp only [mergeUser, if_pos rfl] at h
      rcases List.mem_cons.mp h with h | h
      · exact Or.inr ⟨d, h⟩
      · exact Or.inl (List.mem_cons_of_mem _ h)
    · simp only [mergeUser, if_neg hk] at h
      rcases List.mem_cons.mp h with h | h
      · exact Or.inl (List.mem_cons.mpr (Or.inl h))
      · rcases ih h with h' | h'
        · exact Or.inl (List.mem_cons_of_mem _ h')
        · exact Or.inr h'

theorem exclusiveOn_mergeUser_inactive {p uid : String} {l : List (String × PUserDoc)}
    {f : PUserDoc → PUserDoc} (hf : ∀ d, activeForB p (uid, f d) = false)
    (h : exclusiveOn p l) : exclusiveOn p (mergeUser l uid f) := by
  intro u hu v hv hau hav
  rcases mem_mergeUser hu with hu' | ⟨d, rfl⟩
  · rcases mem_mergeUser hv with hv' | ⟨d', rfl⟩
    · exact h u hu' v hv' hau hav
    · rw [hf d'] at hav
      cases hav
  · rw [hf d] at hau
    cases hau

theorem exclusiveOn_mergeUser_activate {p pe uid : String} {l : List (String × PUserDoc)}
    {f : PUserDoc → PUserDoc} (hf : ∀ d, (f d).payerEmail = some pe)
    (hnc : ∀ w ∈ l, w.2.payerEmail = some pe → w.1 = uid)
    (h : exclusiveOn p l) : exclusiveOn p (mergeUser l uid f) := by
  intro u hu v hv hau hav
  rcases mem_mergeUser hu with hu' | ⟨d, rfl⟩
  · rcases mem_mergeUser hv with hv' | ⟨d', rfl⟩
    · exact h u hu' v hv' hau hav
    · have hpe : pe = p := by
        simp only [activeForB, Bool.and_eq_true, decide_eq_true_eq] at hav
        have h1 := hav.2
        rw [hf d'] at h1
        exact Option.some.inj h1
      have hu1 : u.1 = uid := by
        apply hnc u hu'
        simp only [activeForB, Bool.and_eq_true, decide_eq_true_eq] at hau
        rw [hpe]
        exact hau.2
      simp [hu1]
  · rcases mem_mergeUser hv with hv' | ⟨d', rfl⟩
    · have hpe : pe = p := by
        simp only [activeForB, Bool.and_eq_true, decide_eq_true_eq] at hau
        have h1 := hau.2
        rw [hf d] at h1
        exact Option.some.inj h1
      have hv1 : v.1 = uid := by
        apply hnc v hv'
        simp only [activeForB, Bool.and_eq_true, decide_eq_true_eq] at hav
        rw [hpe]
        exact hav.2
      simp [hv1]
    · rfl

theorem paypalActivate_preserves (db : PDb) (sid planId uid pe p : String)
    (h : exclusiveOn p db.users) :
    exclusiveOn p (paypalActivate db sid planId uid pe).users := by
  unfold paypalActivate
  cases hfind : db.users.find? (conflictB uid pe) with
  | some w => exact h
  | none =>
    dsimp only
    have hnc : ∀ w ∈ db.users, w.2.payerEmail = some pe → w.1 = uid := by
      intro w hw hwpe
      have hthis := List.find?_eq_none.mp hfind w hw
      simp [conflictB, hwpe] at hthis
      exact hthis
    exact exclusiveOn_mergeUser_activate (fun d => rfl) hnc h

theorem statusMerge_preserves (db : PDb) (uid status p : String) (hs : ¬status = "active")
    (h : exclusiveOn p db.users) : exclusiveOn p (statusMerge db uid status).users := by
  dsimp only [statusMerge]
  apply exclusiveOn_mergeUser_inactive _ h
  intro d
  simp [activeForB, hs]

theorem paypalCancelled_preserves (db : PDb) (uid p : String)
    (h : exclusiveOn p db.users) : exclusiveOn p (paypalCancelled db uid).users := by
  dsimp only [paypalCancelled]
  apply exclusiveOn_mergeUser_inactive _ h
  intro d
  simp [activeForB]

theorem paypalWebhook_preserves_exclusive (db : PDb) (et : String) (r? : Option PayPalResource)
    (p : String) (h : activeExclusive p db) : activeExclusive p (paypalWebhook db et r?).1 := by
  unfold activeExclusive at *
  cases r? with
  | none => exact h
  | some r =>
    unfold paypalWebhook
    dsimp only
    repeat' split
    all_goals dsimp only
    all_goals first
      | exact h
      | exact paypalActivate_preserves _ _ _ _ _ _ h
      | exact paypalCancelled_preserves _ _ _ h
      | exact statusMerge_preserves _ _ _ _ (by decide) h

def c3user : PUserDoc :=
  { emptyPUser with
      subscriptionStatus := some "active"
      payerEmail := some "a@x.com"
      subscription_tier := some "Champ" }

def c3db : PDb := ⟨[("u1", c3user)], [], [], [], []⟩

def c3res : PayPalResource := ⟨"sub-2", some "P-GM1", some "u2", some "a@x.com"⟩

/-- A verified Stripe `customer.subscription.updated` event for user `u2`
whose customer identifier is the payer identity already bound to `u1`. -/
def c3stripeEvent : StripeEventObj :=
  ⟨"customer.subscription.updated", none, some "u2", some "Champ", some "a@x.com",
   some "active", some "sub-9", none, none, none⟩

/-- The user document the Stripe update branch writes for `u2`. -/
def c3u2doc : PUserDoc :=
  ⟨none, none, some "active", some "a@x.com", some "Champ", some "sub-9",
   some "stripe", some "stripe", some 10⟩

/-- C3 counterexample: user `u1` holds an active entitlement bound to
`a@x.com`.  First, a PayPal activation for `u2` with the same payer email
is rejected and a provider cancellation is issued, but no AuditRecord is
recorded anywhere — the `purchase_audits` ledger stays empty (this server
never writes it), contradicting the claimed audit with status `Cancelled`.
Second, the claimed invariant itself fails: a Stripe
`customer.subscription.updated` event for `u2` carrying the same customer
identity and status `"active"` is applied with no conflict check
(part_006 lines 132-146 via `updateSubscriptionInFirestore`, line 54), after
which both `u1` and `u2` hold an Active entitlement bound to `a@x.com`. -/
theorem paypal_conflict_no_audit_cex :
    (paypalWebhook c3db "BILLING.SUBSCRIPTION.ACTIVATED" (some c3res)).1.cancels
      = [("sub-2", dupEmailReason)] ∧
    (paypalWebhook c3db "BILLING.SUBSCRIPTION.ACTIVATED" (some c3res)).1.audits = [] ∧
    (paypalWebhook c3db "BILLING.SUBSCRIPTION.ACTIVATED" (some c3res)).1.users = c3db.users ∧
    ¬activeExclusive "a@x.com" (stripeWebhook c3db (some c3stripeEvent)).1 := by
  refine ⟨by decide, by decide, by decide, ?_⟩
  intro h
  exact absurd
    (h ("u1", c3user) (by decide) ("u2", c3u2doc) (by decide) (by decide) (by decide))
    (by decide)

/-- C3 (amended): a PayPal activation for a user id whose payer email
already belongs to a different user is rejected: the webhook issues a
cancellation request for the new subscription with the duplicate-email
reason and performs no state change at all for either account — in
particular no AuditRecord is written for the rejection (it is only
logged).  At-most-one-active-per-payer-identity is preserved by every
PayPal webhook event, but only by those: the Stripe subscription-update
events write an active entitlement carrying the event's customer identity
with no conflict check, so the invariant does not hold globally (see the
counterexample). -/
theorem paypal_identity_conflict (db : PDb) (r : PayPalResource) (uid pe et p : String)
    (r? : Option PayPalResource) :
    (¬r.id = "" → r.custom_id = some uid → ¬uid = "" → ¬uid = "N/A" →
      r.subscriberEmail = some pe → ¬pe = "" →
      (∃ w ∈ db.users, w.2.payerEmail = some pe ∧ ¬w.1 = uid) →
      paypalWebhook db "BILLING.SUBSCRIPTION.ACTIVATED" (some r)
        = ({ db with cancels := db.cancels ++ [(r.id, dupEmailReason)] }, 200)) ∧
    (activeExclusive p db → activeExclusive p (paypalWebhook db et r?).1) := by
  constructor
  · intro hid hcid huid1 huid2 hpe hpe1 hex
    obtain ⟨w, hw, hwpe, hwuid⟩ := hex
    have hjs : jsOr r.custom_id "N/A" = uid := by
      rw [hcid]
      simp [jsOr, huid1]
    unfold paypalWebhook
    dsimp only
    rw [if_neg (not_or.mpr ⟨by decide, hid⟩)]
    rw [hjs, if_pos rfl, hpe]
    dsimp only
    rw [if_pos ⟨hpe1, huid2⟩]
    have hfind : (db.users.find? (conflictB uid pe)).isSome = true :=
      List.find?_isSome.mpr ⟨w, hw, by simp [conflictB, hwpe, hwuid]⟩
    unfold paypalActivate
    cases hf : db.users.find? (conflictB uid pe) with
    | none =>
      rw [hf] at hfind
      cases hfind
    | some w' => rfl
  · exact paypalWebhook_preserves_exclusive db et r? p

theorem paypal_identity_conflict_witness :
    paypalWebhook c3db "BILLING.SUBSCRIPTION.ACTIVATED" (some c3res)
      = ({ c3db with cancels := c3db.cancels ++ [("sub-2", dupEmailReason)] }, 200) ∧
    activeExclusive "a@x.com" (paypalWebhook c3db "PAYMENT.SALE.COMPLETED" none).1 :=
  ⟨(paypal_identity_conflict c3db c3res "u2" "a@x.com" "PAYMENT.SALE.COMPLETED" "a@x.com"
      none).1 (by decide) rfl (by decide) (by decide) rfl (by decide)
      ⟨("u1", c3user), by decide, by decide, by decide⟩,
   (paypal_identity_conflict c3db c3res "u2" "a@x.com" "PAYMENT.SALE.COMPLETED" "a@x.com"
      none).2 (by
        intro u hu v hv _ _
        simp only [c3db, List.mem_singleton] at hu hv
        rw [hu, hv])⟩
